import Mathlib

/-!
Shallow embedding of the license-management Telegram bot, translated from
`src/bot.py` and `src/telegram-bot/bot.py`.

Modelling decisions:
- Calendar dates are day numbers (`Int`); `date.today()` becomes an explicit
  `today` parameter and `timedelta(days = n)` becomes `+ n`.
- A record's `expires` field (an ISO date string in the JSON document) is
  modelled as `Option Int`: `some d` when `date.fromisoformat` succeeds,
  `none` when the field is missing or unparseable (the `except ValueError`
  code paths).  Lexicographic order on well-formed ISO date strings agrees
  with the numeric order on day numbers, and a missing field (the empty
  string default) sorts before every date.
- `secrets.choice` is modelled by an arbitrary stream of draws
  `choice : Nat → Nat`, reduced modulo the alphabet length, so every theorem
  quantifies over all possible random outcomes.
- The Telegram layer (argument splitting, replies, admin checks) is outside
  the modelled core; command handlers are modelled as pure functions from the
  already-parsed arguments, the fetched license list and the clock to a
  result that is either an error reply or the new document to be written.
- The GitHub content API is modelled by explicit environments (`FetchEnv`,
  `SaveEnv`) describing what the remote interaction would have done; the
  functions `get_licenses` and `save_licenses` map those environments to the
  exact values the Python functions return in each case.
- Functions present in both source variants with identical bodies are
  modelled once; where the two variants diverge (`renovar`, `cancelar`) the
  `src/telegram-bot/bot.py` version carries the suffix `_tg`.
-/

namespace LicenseBot

/-- A license record, from the JSON objects in `licenses.json`
(fields as built by `ativar` in both variants). -/
structure License where
  key : String
  cpf_cnpj : String
  customer : String
  email : String
  plan : String
  status : String
  expires : Option Int
  max_users : Nat
  created_at : String
deriving DecidableEq

/-- `normalize_cpf_cnpj` from both variants: strips every non-digit
character (`re.sub(r"[^\d]", "", value)`). -/
def normalize_cpf_cnpj (value : String) : String :=
  String.mk (value.data.filter Char.isDigit)

/-- The key alphabet literal `chars` inside `generate_license_key`. -/
def license_chars : String := "ABCDEFGHJKMNPQRSTUVWXYZ23456789"

/-- One draw of `secrets.choice(chars)`: the `i`-th value of the draw stream,
reduced modulo the alphabet length so that every stream denotes a possible
run of the random source. -/
def license_char (choice : Nat → Nat) (i : Nat) : Char :=
  license_chars.data.getD (choice i % license_chars.length) 'A'

/-- `generate_license_key` from both variants: four groups of four drawn
characters, joined by `"-"`.  Draws are consumed left to right. -/
def generate_license_key (choice : Nat → Nat) : String :=
  String.intercalate "-"
    (([0, 1, 2, 3] : List Nat).map (fun g =>
      String.mk [license_char choice (4 * g), license_char choice (4 * g + 1),
                 license_char choice (4 * g + 2), license_char choice (4 * g + 3)]))

/-- The match test used by `find_license_by_cpf`: the stored identifier,
normalized, equals the (already normalized) query. -/
def cpf_matches (cpf : String) (lic : License) : Bool :=
  normalize_cpf_cnpj lic.cpf_cnpj == normalize_cpf_cnpj cpf

/-- `find_license_by_cpf` from both variants: linear scan, first match. -/
def find_license_by_cpf (cpf : String) (licenses : List License) : Option License :=
  licenses.find? (cpf_matches cpf)

/-- In-place mutation of the record object returned by `find_license_by_cpf`
is modelled as replacing the first matching element of the list. -/
def update_first (p : License → Bool) (f : License → License) :
    List License → List License
  | [] => []
  | lic :: rest => if p lic then f lic :: rest else lic :: update_first p f rest

/-- The situations `get_licenses` can encounter against the GitHub API. -/
inductive FetchEnv where
  /-- `GITHUB_TOKEN` not configured: early return, no request made. -/
  | noToken
  /-- `urllib.request.urlopen` raised (network, TLS, auth, HTTP error). -/
  | netError
  /-- `licenses.json` does not exist: GET answers 404, `urlopen` raises. -/
  | missing
  /-- The response arrived but base64/JSON decoding raised. -/
  | decodeError (sha : String)
  /-- Successful fetch of the document and its blob sha. -/
  | ok (licenses : List License) (sha : String)
deriving DecidableEq

/-- `get_licenses` from both variants: the value returned in each situation.
Every exception path is caught by the bare `except` and yields `([], None)`. -/
def get_licenses : FetchEnv → List License × Option String
  | .noToken => ([], none)
  | .netError => ([], none)
  | .missing => ([], none)
  | .decodeError _ => ([], none)
  | .ok lics sha => (lics, some sha)

/-- The situations `save_licenses` can encounter against the GitHub API. -/
inductive SaveEnv where
  /-- `GITHUB_TOKEN` not configured: early return `False`. -/
  | noToken
  /-- `urlopen` raised for network/TLS/auth reasons. -/
  | netError
  /-- Compare-and-swap failure: the supplied sha is stale, GitHub rejects
  the PUT with an error status and `urlopen` raises `HTTPError`. -/
  | staleSha
  /-- The PUT went through and answered the given HTTP status. -/
  | ok (httpStatus : Nat)
deriving DecidableEq

/-- `save_licenses` from both variants: `True` only for a 200/201 response;
every exception path is caught and yields `False`. -/
def save_licenses : SaveEnv → Bool
  | .noToken => false
  | .netError => false
  | .staleSha => false
  | .ok s => s == 200 || s == 201

/-- Result of the `ativar` handler after argument parsing. -/
inductive AtivarResult where
  /-- Reply `CPF/CNPJ invalido.`; no further work. -/
  | invalidCpf
  /-- Reply `Meses deve ser 1-24.`; no further work. -/
  | invalidMonths
  /-- Reply `Ja existe licenca ...`; no record appended, no write. -/
  | duplicate (existing : License)
  /-- `save_licenses` is called with this new document. -/
  | created (newLicenses : List License)
deriving DecidableEq

/-- `ativar` from both variants (they agree): validate the identifier
length, validate `1 <= meses <= 24`, reject duplicates, otherwise append a
fresh record and write.  `key` and `createdAt` stand for the values of
`generate_license_key()` and `datetime.now().isoformat()`. -/
def ativar (cpfRaw : String) (meses : Int) (nome : String) (today : Int)
    (key createdAt : String) (licenses : List License) : AtivarResult :=
  let cpf := normalize_cpf_cnpj cpfRaw
  if cpf.length ≠ 11 ∧ cpf.length ≠ 14 then .invalidCpf
  else if meses < 1 ∨ meses > 24 then .invalidMonths
  else
    match find_license_by_cpf cpf licenses with
    | some existing => .duplicate existing
    | none =>
      let nova : License :=
        { key := key, cpf_cnpj := cpf, customer := nome, email := "",
          plan := "profissional", status := "active",
          expires := some (today + 30 * meses), max_users := 3,
          created_at := createdAt }
      .created (licenses ++ [nova])

/-- Result of a handler that looks a record up and, if found, writes. -/
inductive CmdResult where
  /-- Reply `Licenca nao encontrada`; no mutation, no write. -/
  | notFound
  /-- `save_licenses` is called with this new document. -/
  | write (newLicenses : List License)
deriving DecidableEq

/-- `should_start_from_zero` computed by `renovar` in `src/bot.py`:
cancelled, or key empty/whitespace (`not current_key or
current_key.strip() == ""`, i.e. every character of the key is whitespace,
vacuously so for the empty string), or `current_expires <= date.today()`,
where an unparseable date already fell back to `date.today()`. -/
def should_start_from_zero (lic : License) (today : Int) : Bool :=
  (lic.status == "cancelled") || lic.key.data.all Char.isWhitespace ||
    decide (lic.expires.getD today ≤ today)

/-- The mutation `renovar` in `src/bot.py` applies to the found record. -/
def renovar_record (lic : License) (today : Int) (freshKey : String)
    (meses : Int) : License :=
  if should_start_from_zero lic today then
    { lic with key := freshKey, expires := some (today + 30 * meses),
               status := "active" }
  else
    { lic with expires := some (lic.expires.getD today + 30 * meses),
               status := "active" }

/-- `renovar` in `src/bot.py` at the document level. -/
def renovar (cpfRaw : String) (meses : Int) (today : Int) (freshKey : String)
    (licenses : List License) : CmdResult :=
  let cpf := normalize_cpf_cnpj cpfRaw
  match find_license_by_cpf cpf licenses with
  | none => .notFound
  | some _ =>
      .write (update_first (cpf_matches cpf)
        (fun lic => renovar_record lic today freshKey meses) licenses)

/-- The mutation `renovar` in `src/telegram-bot/bot.py` applies to the found
record: `base_date = max(current_expires, date.today())`, key untouched. -/
def renovar_tg_record (lic : License) (today : Int) (meses : Int) : License :=
  { lic with expires := some (max (lic.expires.getD today) today + 30 * meses),
             status := "active" }

/-- `renovar` in `src/telegram-bot/bot.py` at the document level. -/
def renovar_tg (cpfRaw : String) (meses : Int) (today : Int)
    (licenses : List License) : CmdResult :=
  let cpf := normalize_cpf_cnpj cpfRaw
  match find_license_by_cpf cpf licenses with
  | none => .notFound
  | some _ =>
      .write (update_first (cpf_matches cpf)
        (fun lic => renovar_tg_record lic today meses) licenses)

/-- The mutation `cancelar` in `src/bot.py` applies to the found record. -/
def cancelar_record (today : Int) (lic : License) : License :=
  { lic with status := "cancelled", expires := some today, key := "" }

/-- `cancelar` in `src/bot.py` at the document level. -/
def cancelar (cpfRaw : String) (today : Int) (licenses : List License) :
    CmdResult :=
  let cpf := normalize_cpf_cnpj cpfRaw
  match find_license_by_cpf cpf licenses with
  | none => .notFound
  | some _ => .write (update_first (cpf_matches cpf) (cancelar_record today) licenses)

/-- The mutation `cancelar` in `src/telegram-bot/bot.py` applies to the
found record: only the status changes. -/
def cancelar_tg_record (lic : License) : License :=
  { lic with status := "cancelled" }

/-- `cancelar` in `src/telegram-bot/bot.py` at the document level. -/
def cancelar_tg (cpfRaw : String) (licenses : List License) : CmdResult :=
  let cpf := normalize_cpf_cnpj cpfRaw
  match find_license_by_cpf cpf licenses with
  | none => .notFound
  | some _ => .write (update_first (cpf_matches cpf) cancelar_tg_record licenses)

/-- The mutation `suspender` in `src/telegram-bot/bot.py` applies to the
found record: only the status changes. -/
def suspender_record (lic : License) : License :=
  { lic with status := "suspended" }

/-- `suspender` in `src/telegram-bot/bot.py` at the document level. -/
def suspender (cpfRaw : String) (licenses : List License) : CmdResult :=
  let cpf := normalize_cpf_cnpj cpfRaw
  match find_license_by_cpf cpf licenses with
  | none => .notFound
  | some _ => .write (update_first (cpf_matches cpf) suspender_record licenses)

/-- The body of the collection loop in `vencendo`: the entry appended for a
record, if any (`None` models both the status skip and the parse skip). -/
def vencendo_entry (hoje : Int) (lic : License) : Option (License × Int) :=
  if lic.status == "active" then
    match lic.expires with
    | some e => if e ≤ hoje + 7 then some (lic, e - hoje) else none
    | none => none
  else none

/-- `vencendo` from `src/telegram-bot/bot.py`: collect `(record, days)`
pairs then sort by days remaining (`proximas.sort(key=lambda x: x[1])`,
a stable ascending sort, modelled by insertion sort). -/
def vencendo (licenses : List License) (hoje : Int) : List (License × Int) :=
  (licenses.filterMap (vencendo_entry hoje)).insertionSort
    (fun a b => a.2 ≤ b.2)

/-- `status_order` inside `listar` in `src/telegram-bot/bot.py`:
rank of the stored status string, default 9. -/
def listar_status_order (s : String) : Nat :=
  if s == "active" then 0
  else if s == "suspended" then 1
  else if s == "expired" then 2
  else if s == "cancelled" then 3
  else 9

/-- Order on the second sort-key component: the `expires` strings compare
lexicographically, which on ISO dates is the day-number order, with the
missing-field default `""` before every date. -/
def exp_le : Option Int → Option Int → Bool
  | none, _ => true
  | some _, none => false
  | some a, some b => decide (a ≤ b)

/-- The (total, transitive) order induced by `sort_key` in `listar`:
Python tuple order on `(status_order, expires)`. -/
def listar_le (a b : License) : Bool :=
  decide (listar_status_order a.status < listar_status_order b.status) ||
  ((listar_status_order a.status == listar_status_order b.status) &&
    exp_le a.expires b.expires)

/-- The sorting step of `listar` in `src/telegram-bot/bot.py`
(`licenses.sort(key=sort_key)`, stable, modelled by insertion sort). -/
def listar_sort (licenses : List License) : List License :=
  licenses.insertionSort (fun a b => listar_le a b = true)

/-- Modelled from the spec: the primary listing rank the specification
describes for `sortForListing`, where rank 2 ("derived-expired") is a
record whose stored status is `active` but whose expiration is before
today.  The code has no such derived rank; this definition exists to be
compared against the code's `listar_status_order`. -/
def spec_status_rank (today : Int) (lic : License) : Nat :=
  if lic.status == "active" then
    (if decide (lic.expires.getD today < today) then 2 else 0)
  else if lic.status == "suspended" then 1
  else if lic.status == "cancelled" then 3
  else 9

/-- Modelled from the spec: the failure category the specification requires
`write` to expose (`Ok | Conflict | Unavailable`). -/
inductive WriteOutcome where
  | okOut
  | conflictOut
  | unavailableOut
deriving DecidableEq

/-- Modelled from the spec: which category each write situation belongs to
(stale revision is `Conflict`; network/auth trouble is `Unavailable`). -/
def write_category : SaveEnv → WriteOutcome
  | .noToken => .unavailableOut
  | .netError => .unavailableOut
  | .staleSha => .conflictOut
  | .ok _ => .okOut

/-- Whether a fetch situation is a failure (no usable document fetched). -/
def fetch_failed : FetchEnv → Bool
  | .ok _ _ => false
  | _ => true

/-- A typical stored record, used to build concrete instances. -/
def base_lic : License :=
  { key := "XK3F-9MPQ-7RTV-2WZY", cpf_cnpj := "12345678901",
    customer := "Cliente 8901", email := "", plan := "profissional",
    status := "active", expires := some 10, max_users := 3,
    created_at := "2025-02-01T12:00:00" }

theorem update_first_length (p : License → Bool) (f : License → License) :
    ∀ l : List License, (update_first p f l).length = l.length
  | [] => rfl
  | lic :: rest => by
    by_cases h : p lic <;>
      simp [update_first, h, update_first_length p f rest]

theorem update_first_forall₂ (p : License → Bool) (f : License → License) :
    ∀ l : List License,
      List.Forall₂ (fun a b => b = a ∨ (p a = true ∧ b = f a)) l
        (update_first p f l)
  | [] => List.Forall₂.nil
  | lic :: rest => by
    by_cases h : p lic
    · simp only [update_first, h, if_true]
      exact List.Forall₂.cons (Or.inr ⟨h, rfl⟩)
        (List.forall₂_same.mpr (fun x _ => Or.inl rfl))
    · simp only [update_first, h, if_false]
      exact List.Forall₂.cons (Or.inl rfl) (update_first_forall₂ p f rest)

theorem find?_update_first_mem (p : License → Bool) (f : License → License) :
    ∀ (l : List License) (a : License),
      l.find? p = some a → f a ∈ update_first p f l
  | [], a, h => by simp at h
  | lic :: rest, a, h => by
    by_cases hp : p lic
    · rw [List.find?_cons_of_pos _ hp] at h
      cases h
      simp [update_first, hp]
    · rw [List.find?_cons_of_neg _ hp] at h
      simp only [update_first, hp, if_false]
      exact List.mem_cons_of_mem _ (find?_update_first_mem p f rest a h)

theorem normalize_idem (s : String) :
    normalize_cpf_cnpj (normalize_cpf_cnpj s) = normalize_cpf_cnpj s := by
  simp [normalize_cpf_cnpj, List.filter_filter]

/-- A cancelled record whose stored expiration is still in the future. -/
def c1_rec : License :=
  { base_lic with status := "cancelled", key := "AAAA-AAAA-AAAA-AAAA",
                  expires := some 10 }

/-- C1 counterexample: on a cancelled record with a nonempty key and a
future expiration (day 10, today = 0, one month), the `renovar` of
`src/telegram-bot/bot.py` keeps the old key and moves the expiration to
day 40, not to `today + 30` as the claim requires for every renew. -/
theorem c1_renovar_counterexample :
    renovar_tg_record c1_rec 0 1 =
      { c1_rec with expires := some 40, status := "active" } ∧
    c1_rec.status = "cancelled" ∧
    (renovar_tg_record c1_rec 0 1).key = "AAAA-AAAA-AAAA-AAAA" ∧
    (renovar_tg_record c1_rec 0 1).expires ≠ some (0 + 30 * 1) := by
  refine ⟨rfl, rfl, rfl, ?_⟩
  decide

/-- C1 (amended to the `src/bot.py` variant): if the record is cancelled,
keyless, or has expired, renewal restarts from today with a fresh key;
otherwise it extends the current expiration and keeps the key; status
becomes `active` in both cases. -/
theorem c1_renovar_policy (lic : License) (today : Int) (freshKey : String)
    (meses : Int) (e : Int) (he : lic.expires = some e) :
    (lic.status = "cancelled" ∨ lic.key.data.all Char.isWhitespace = true ∨
        e ≤ today →
      renovar_record lic today freshKey meses =
        { lic with key := freshKey, expires := some (today + 30 * meses),
                   status := "active" }) ∧
    (lic.status ≠ "cancelled" → lic.key.data.all Char.isWhitespace = false →
        today < e →
      renovar_record lic today freshKey meses =
        { lic with expires := some (e + 30 * meses), status := "active" }) := by
  constructor
  · intro h
    have hz : should_start_from_zero lic today = true := by
      simp only [should_start_from_zero, he, Option.getD_some, Bool.or_eq_true,
        beq_iff_eq, decide_eq_true_eq]
      tauto
    simp [renovar_record, hz]
  · intro h1 h2 h3
    have hz : should_start_from_zero lic today = false := by
      simp only [should_start_from_zero, he, Option.getD_some, Bool.or_eq_false_iff,
        beq_eq_false_iff_ne, ne_eq, decide_eq_false_iff_not, not_le]
      exact ⟨⟨h1, h2⟩, h3⟩
    simp [renovar_record, hz, he]

/-- Witness for C1: an active record with key and ten days left, renewed
for one month with today = 0, accumulates to day 40. -/
theorem c1_renovar_policy_witness :
    renovar_record base_lic 0 "FRSH-FRSH-FRSH-FRSH" 1 =
      { base_lic with expires := some (10 + 30 * 1), status := "active" } :=
  (c1_renovar_policy base_lic 0 "FRSH-FRSH-FRSH-FRSH" 1 10 rfl).2
    (by decide) (by decide) (by decide)

/-- An active record with a nonempty key and a far expiration, used to
exercise `cancelar`. -/
def c2_rec : License :=
  { base_lic with key := "KEEP-KEEP-KEEP-KEEP", expires := some 99 }

/-- C2 counterexample: `cancelar` in `src/telegram-bot/bot.py` only flips
the status; at today = 0 the cancelled record keeps its key
(`"KEEP-..."`, not `""`) and its expiration (day 99, not today). -/
theorem c2_cancelar_counterexample :
    cancelar_tg "12345678901" [c2_rec] =
      .write [{ c2_rec with status := "cancelled" }] ∧
    (cancelar_tg_record c2_rec).key = "KEEP-KEEP-KEEP-KEEP" ∧
    (cancelar_tg_record c2_rec).key ≠ "" ∧
    (cancelar_tg_record c2_rec).expires = some 99 ∧
    (cancelar_tg_record c2_rec).expires ≠ some 0 := by
  refine ⟨?_, rfl, by decide, rfl, by decide⟩
  decide

/-- C2 (amended): in `src/bot.py`, cancel sets `status = cancelled`,
`expires = today` and `key = ""`; in `src/telegram-bot/bot.py` it sets only
`status = cancelled`, leaving key and expiration untouched; in both
variants the record stays in the document (the written list has the same
length). -/
theorem c2_cancelar_spec (cpfRaw : String) (today : Int)
    (lics : List License) :
    (∀ lic : License, (cancelar_record today lic).status = "cancelled" ∧
        (cancelar_record today lic).expires = some today ∧
        (cancelar_record today lic).key = "") ∧
    (∀ l₁, cancelar cpfRaw today lics = .write l₁ →
        l₁.length = lics.length) ∧
    (∀ lic : License, (cancelar_tg_record lic).status = "cancelled" ∧
        (cancelar_tg_record lic).key = lic.key ∧
        (cancelar_tg_record lic).expires = lic.expires) ∧
    (∀ l₂, cancelar_tg cpfRaw lics = .write l₂ →
        l₂.length = lics.length) := by
  refine ⟨fun lic => ⟨rfl, rfl, rfl⟩, ?_, fun lic => ⟨rfl, rfl, rfl⟩, ?_⟩
  · intro l₁ h
    simp only [cancelar] at h
    cases hf : find_license_by_cpf (normalize_cpf_cnpj cpfRaw) lics with
    | none => rw [hf] at h; cases h
    | some r =>
        rw [hf] at h
        cases h
        exact update_first_length _ _ lics
  · intro l₂ h
    simp only [cancelar_tg] at h
    cases hf : find_license_by_cpf (normalize_cpf_cnpj cpfRaw) lics with
    | none => rw [hf] at h; cases h
    | some r =>
        rw [hf] at h
        cases h
        exact update_first_length _ _ lics

/-- Witness for C2: cancelling the concrete one-record document keeps its
length. -/
theorem c2_cancelar_spec_witness :
    ([{ c2_rec with
        status := "cancelled", expires := some (0 : Int), key := "" }] :
      List License).length = [c2_rec].length :=
  (c2_cancelar_spec "12345678901" 0 [c2_rec]).2.1 _ (by decide)

/-- A stored record whose identifier normalizes to only three digits. -/
def c3_rec : License := { base_lic with cpf_cnpj := "123" }

/-- C3 counterexample: the document contains a record whose normalized
identifier equals the normalized identifier passed to `ativar`, yet the
call fails with the invalid-identifier reply, not with the duplicate
conflict, because length validation runs before the duplicate check. -/
theorem c3_ativar_counterexample :
    ativar "123" 1 "Nome" 0 "XK3F-9MPQ-7RTV-2WZY" "2025-02-01T12:00:00"
        [c3_rec] = .invalidCpf ∧
    normalize_cpf_cnpj c3_rec.cpf_cnpj = normalize_cpf_cnpj "123" ∧
    AtivarResult.invalidCpf ≠ AtivarResult.duplicate c3_rec := by
  refine ⟨by decide, rfl, by decide⟩

/-- C3 (amended): when the identifier and months pass validation, a
document already containing a record with the same normalized identifier
makes `ativar` fail with the duplicate conflict, the reported record also
bearing that identifier, and no new document is ever produced (nothing is
appended, nothing is written). -/
theorem c3_ativar_duplicate (cpfRaw : String) (meses : Int) (nome : String)
    (today : Int) (key createdAt : String) (lics : List License)
    (r : License)
    (hlen : (normalize_cpf_cnpj cpfRaw).length = 11 ∨
      (normalize_cpf_cnpj cpfRaw).length = 14)
    (hm : 1 ≤ meses ∧ meses ≤ 24)
    (hr : r ∈ lics)
    (hid : normalize_cpf_cnpj r.cpf_cnpj = normalize_cpf_cnpj cpfRaw) :
    (∃ ex, ativar cpfRaw meses nome today key createdAt lics =
        .duplicate ex ∧
      normalize_cpf_cnpj ex.cpf_cnpj = normalize_cpf_cnpj cpfRaw) ∧
    (∀ l', ativar cpfRaw meses nome today key createdAt lics ≠
        .created l') := by
  have hfind : (find_license_by_cpf (normalize_cpf_cnpj cpfRaw) lics).isSome := by
    rw [find_license_by_cpf, List.find?_isSome]
    exact ⟨r, hr, by simp [cpf_matches, normalize_idem, hid]⟩
  obtain ⟨ex, hex⟩ := Option.isSome_iff_exists.mp hfind
  have hpex : cpf_matches (normalize_cpf_cnpj cpfRaw) ex = true :=
    List.find?_some hex
  have hexid : normalize_cpf_cnpj ex.cpf_cnpj = normalize_cpf_cnpj cpfRaw := by
    simpa [cpf_matches, normalize_idem] using hpex
  have hres : ativar cpfRaw meses nome today key createdAt lics =
      .duplicate ex := by
    simp only [ativar]
    rw [if_neg (by tauto), if_neg (by omega), hex]
  exact ⟨⟨ex, hres, hexid⟩, fun l' h => by rw [hres] at h; cases h⟩

/-- Witness for C3: activating an identifier already stored in a concrete
one-record document reports the duplicate and creates nothing. -/
theorem c3_ativar_duplicate_witness :
    (∃ ex, ativar "12345678901" 1 "Nome" 0 "XK3F-9MPQ-7RTV-2WZY"
        "2025-02-01T12:00:00" [base_lic] = .duplicate ex ∧
      normalize_cpf_cnpj ex.cpf_cnpj = normalize_cpf_cnpj "12345678901") ∧
    (∀ l', ativar "12345678901" 1 "Nome" 0 "XK3F-9MPQ-7RTV-2WZY"
        "2025-02-01T12:00:00" [base_lic] ≠ .created l') :=
  c3_ativar_duplicate "12345678901" 1 "Nome" 0 "XK3F-9MPQ-7RTV-2WZY"
    "2025-02-01T12:00:00" [base_lic] base_lic (Or.inl (by decide))
    (by decide) (by decide) (by decide)

/-- C4 counterexample: a stale-revision write and a network failure
produce the same value (`False`), so no caller-side reading of the result
can recover the failure category the claim says is exposed; likewise a
failed fetch and a missing document produce the same `([], None)`. -/
theorem c4_store_counterexample :
    save_licenses .staleSha = save_licenses .netError ∧
    get_licenses .netError = get_licenses .missing ∧
    ¬ ∃ f : Bool → WriteOutcome,
        ∀ e : SaveEnv, f (save_licenses e) = write_category e := by
  refine ⟨rfl, rfl, ?_⟩
  rintro ⟨f, hf⟩
  have h1 := hf .staleSha
  have h2 := hf .netError
  simp only [save_licenses, write_category] at h1 h2
  rw [h1] at h2
  exact WriteOutcome.noConfusion h2

/-- C4 (amended): `fetch` signals failure only through the missing
revision token, handing back the empty list as a stand-in document, and
`write` returns a bare boolean that is true exactly for an HTTP 200/201
response, so conflict and unavailability collapse to the same `False`. -/
theorem c4_store_outcomes (e : FetchEnv) (s : SaveEnv) :
    ((get_licenses e).2 = none ↔ fetch_failed e = true) ∧
    (fetch_failed e = true → (get_licenses e).1 = []) ∧
    (save_licenses s = true ↔ ∃ st, s = .ok st ∧ (st = 200 ∨ st = 201)) ∧
    save_licenses .staleSha = save_licenses .netError := by
  refine ⟨?_, ?_, ?_, rfl⟩
  · cases e <;> simp [get_licenses, fetch_failed]
  · cases e <;> simp [get_licenses, fetch_failed]
  · cases s <;> simp [save_licenses]

/-- Witness for C4: the implication holds at the concrete network-failure
fetch. -/
theorem c4_store_outcomes_witness :
    (get_licenses FetchEnv.netError).1 = [] :=
  (c4_store_outcomes FetchEnv.netError SaveEnv.netError).2.1 rfl

/-- A cancelled record with a nonempty key and a future expiration: the
state on which the two renewal policies disagree. -/
def c6_rec : License :=
  { base_lic with status := "cancelled", key := "AAAA-AAAA-AAAA-AAAA",
                  expires := some 10 }

/-- C6: the two `renovar` variants diverge.  On a cancelled record with a
key and ten days left they produce different records; the `src/bot.py`
variant regenerates the key and restarts from today exactly when
`should_start_from_zero` holds (cancelled, keyless, or expired) and
otherwise accumulates from the stored expiration, while the
`src/telegram-bot/bot.py` variant always starts from
`max(currentExpiry, today)` and never touches the key. -/
theorem c6_renewal_policies :
    renovar_record c6_rec 0 "NEWK-NEWK-NEWK-NEWK" 1 ≠
      renovar_tg_record c6_rec 0 1 ∧
    (∀ (lic : License) (today : Int) (k : String) (m : Int),
        (renovar_record lic today k m).key =
          if should_start_from_zero lic today then k else lic.key) ∧
    (∀ (lic : License) (today : Int) (k : String) (m : Int),
        (renovar_record lic today k m).expires =
          some ((if should_start_from_zero lic today then today
                 else lic.expires.getD today) + 30 * m)) ∧
    (∀ (lic : License) (today : Int) (k : String) (m : Int),
        (renovar_record lic today k m).status = "active") ∧
    (∀ (lic : License) (today m : Int),
        renovar_tg_record lic today m =
          { lic with expires := some (max (lic.expires.getD today) today + 30 * m),
                     status := "active" }) := by
  refine ⟨by decide, ?_, ?_, ?_, fun lic today m => rfl⟩
  · intro lic today k m
    by_cases h : should_start_from_zero lic today = true
    · simp [renovar_record, h]
    · simp only [Bool.not_eq_true] at h
      simp [renovar_record, h]
  · intro lic today k m
    by_cases h : should_start_from_zero lic today = true
    · simp [renovar_record, h]
    · simp only [Bool.not_eq_true] at h
      simp [renovar_record, h]
  · intro lic today k m
    by_cases h : should_start_from_zero lic today = true
    · simp [renovar_record, h]
    · simp only [Bool.not_eq_true] at h
      simp [renovar_record, h]

/-- Witness for C6: the key of a concrete record renewed by the
`src/bot.py` policy, as the policy characterization computes it. -/
theorem c6_renewal_policies_witness :
    (renovar_record base_lic 0 "NEWK-NEWK-NEWK-NEWK" 1).key =
      (if should_start_from_zero base_lic 0 then "NEWK-NEWK-NEWK-NEWK"
       else base_lic.key) :=
  c6_renewal_policies.2.1 base_lic 0 "NEWK-NEWK-NEWK-NEWK" 1

theorem vencendo_entry_eq_some (hoje : Int) (lic : License)
    (p : License × Int) :
    vencendo_entry hoje lic = some p ↔
      lic.status = "active" ∧
      ∃ e, lic.expires = some e ∧ e ≤ hoje + 7 ∧ p = (lic, e - hoje) := by
  unfold vencendo_entry
  by_cases hs : lic.status = "active"
  · cases hx : lic.expires with
    | none => simp [hs, hx]
    | some e =>
        by_cases he : e ≤ hoje + 7
        · simp [hs, hx, he, eq_comm]
        · simp [hs, hx, he]
  · simp [hs]

instance : IsTotal (License × Int) (fun a b => a.2 ≤ b.2) :=
  ⟨fun a b => le_total a.2 b.2⟩

instance : IsTrans (License × Int) (fun a b => a.2 ≤ b.2) :=
  ⟨fun _ _ _ => le_trans⟩

/-- An active record already five days past its expiration. -/
def c5_rec : License := { base_lic with expires := some 95 }

/-- C5 counterexample: with today = 100 the active record expiring on day
95 — before today, hence outside the claimed window `[D, D+7]` — is still
returned by `vencendo`, so the result is not exactly the records with
`D <= expiresOn <= D+7`. -/
theorem c5_vencendo_counterexample :
    vencendo [c5_rec] 100 = [(c5_rec, -5)] ∧
    c5_rec.status = "active" ∧ c5_rec.expires = some 95 ∧
    (95 : Int) < 100 := by
  refine ⟨by decide, rfl, rfl, by decide⟩

/-- C5 (amended): `vencendo` returns exactly the pairs `(record, days)`
for stored records with status `active` and a parseable expiration at most
`D + 7` — with no lower bound, so long-expired records are included — each
paired with its (possibly negative) days remaining, in ascending order of
days remaining; records with any other status are excluded. -/
theorem c5_vencendo_spec (lics : List License) (hoje : Int) :
    (∀ p ∈ vencendo lics hoje,
        p.1 ∈ lics ∧ p.1.status = "active" ∧
        ∃ e, p.1.expires = some e ∧ e ≤ hoje + 7 ∧ p.2 = e - hoje) ∧
    (∀ lic ∈ lics, lic.status = "active" →
        ∀ e, lic.expires = some e → e ≤ hoje + 7 →
          (lic, e - hoje) ∈ vencendo lics hoje) ∧
    List.Sorted (fun p q : License × Int => p.2 ≤ q.2)
      (vencendo lics hoje) := by
  have hmem : ∀ p : License × Int,
      p ∈ vencendo lics hoje ↔
        ∃ lic ∈ lics, vencendo_entry hoje lic = some p := by
    intro p
    unfold vencendo
    rw [List.mem_insertionSort, List.mem_filterMap]
  refine ⟨?_, ?_, ?_⟩
  · intro p hp
    obtain ⟨lic, hlic, hent⟩ := (hmem p).mp hp
    obtain ⟨hs, e, he, hle, hpe⟩ :=
      (vencendo_entry_eq_some hoje lic p).mp hent
    subst hpe
    exact ⟨hlic, hs, e, he, hle, rfl⟩
  · intro lic hlic hs e he hle
    exact (hmem _).mpr
      ⟨lic, hlic, (vencendo_entry_eq_some _ _ _).mpr ⟨hs, e, he, hle, rfl⟩⟩
  · exact List.sorted_insertionSort _ _

/-- A record expiring tomorrow (day 101 with today = 100). -/
def c5_wrec : License := { base_lic with expires := some 101 }

/-- Witness for C5: the record expiring on day 101 appears in the day-100
report with one day remaining. -/
theorem c5_vencendo_spec_witness :
    (c5_wrec, (101 : Int) - 100) ∈ vencendo [c5_wrec] 100 :=
  (c5_vencendo_spec [c5_wrec] 100).2.1 c5_wrec (by decide) rfl 101 rfl
    (by decide)

theorem license_char_mem (choice : Nat → Nat) (i : Nat) :
    license_char choice i ∈ license_chars.data := by
  unfold license_char
  have h : choice i % license_chars.length < license_chars.data.length := by
    rw [show license_chars.data.length = 31 from rfl,
        show license_chars.length = 31 from rfl]
    exact Nat.mod_lt _ (by decide)
  rw [List.getD_eq_getElem _ _ h]
  exact List.getElem_mem h

theorem license_chars_not_ambiguous :
    ∀ ch ∈ license_chars.data,
      ch ≠ '0' ∧ ch ≠ '1' ∧ ch ≠ 'I' ∧ ch ≠ 'O' ∧ ch ≠ 'L' := by decide

/-- C7 counterexample: the alphabet actually used by
`generate_license_key` has 31 symbols, not the claimed 32 — beyond
`0`, `1`, `I`, `O` it also omits `L`. -/
theorem c7_generate_counterexample :
    license_chars.length = 31 ∧ license_chars.length ≠ 32 ∧
    'L' ∉ license_chars.data := by
  exact ⟨rfl, by decide, by decide⟩

/-- C7 (amended): for every possible run of the random source,
`generate_license_key` yields a 19-character string of four hyphen-joined
groups of four characters drawn from the 31-symbol alphabet
`ABCDEFGHJKMNPQRSTUVWXYZ23456789`; no output contains any of
`0`, `1`, `I`, `O` (nor `L`). -/
theorem c7_generate_spec (choice : Nat → Nat) :
    (generate_license_key choice).length = 19 ∧
    (∃ p₀ p₁ p₂ p₃ : String,
        generate_license_key choice =
          p₀ ++ "-" ++ p₁ ++ "-" ++ p₂ ++ "-" ++ p₃ ∧
        p₀.length = 4 ∧ p₁.length = 4 ∧ p₂.length = 4 ∧ p₃.length = 4) ∧
    (∀ ch ∈ (generate_license_key choice).data,
        ch = '-' ∨ ch ∈ license_chars.data) ∧
    (∀ ch ∈ (generate_license_key choice).data,
        ch ≠ '0' ∧ ch ≠ '1' ∧ ch ≠ 'I' ∧ ch ≠ 'O' ∧ ch ≠ 'L') := by
  have hdata : (generate_license_key choice).data =
      [license_char choice 0, license_char choice 1, license_char choice 2,
       license_char choice 3, '-',
       license_char choice 4, license_char choice 5, license_char choice 6,
       license_char choice 7, '-',
       license_char choice 8, license_char choice 9, license_char choice 10,
       license_char choice 11, '-',
       license_char choice 12, license_char choice 13, license_char choice 14,
       license_char choice 15] := rfl
  have hforall : ∀ ch ∈ (generate_license_key choice).data,
      ch = '-' ∨ ch ∈ license_chars.data := by
    intro ch hch
    rw [hdata] at hch
    simp only [List.mem_cons, List.not_mem_nil, or_false] at hch
    rcases hch with h|h|h|h|h|h|h|h|h|h|h|h|h|h|h|h|h|h|h <;> subst h <;>
      first
        | exact Or.inl rfl
        | exact Or.inr (license_char_mem choice _)
  refine ⟨?_, ?_, hforall, ?_⟩
  · rw [show (generate_license_key choice).length =
        (generate_license_key choice).data.length from rfl, hdata]
    rfl
  · exact ⟨String.mk [license_char choice 0, license_char choice 1,
        license_char choice 2, license_char choice 3],
      String.mk [license_char choice 4, license_char choice 5,
        license_char choice 6, license_char choice 7],
      String.mk [license_char choice 8, license_char choice 9,
        license_char choice 10, license_char choice 11],
      String.mk [license_char choice 12, license_char choice 13,
        license_char choice 14, license_char choice 15],
      rfl, rfl, rfl, rfl, rfl⟩
  · intro ch hch
    rcases hforall ch hch with h | h
    · subst h
      decide
    · exact license_chars_not_ambiguous ch h

/-- Witness for C7: a concrete draw stream yields a 19-character key. -/
theorem c7_generate_spec_witness :
    (generate_license_key (fun i => i)).length = 19 :=
  (c7_generate_spec (fun i => i)).1

theorem exp_le_total (x y : Option Int) :
    exp_le x y = true ∨ exp_le y x = true := by
  cases x <;> cases y <;> simp [exp_le]
  exact le_total _ _

theorem exp_le_trans {x y z : Option Int} (h1 : exp_le x y = true)
    (h2 : exp_le y z = true) : exp_le x z = true := by
  cases x <;> cases y <;> cases z <;> simp_all [exp_le]
  omega

theorem listar_le_total (a b : License) :
    listar_le a b = true ∨ listar_le b a = true := by
  unfold listar_le
  rcases Nat.lt_trichotomy (listar_status_order a.status)
      (listar_status_order b.status) with h | h | h
  · left; simp [h]
  · rcases exp_le_total a.expires b.expires with he | he
    · left; simp [h, he]
    · right; simp [h.symm, he]
  · right; simp [h]

theorem listar_le_trans {a b c : License} (h1 : listar_le a b = true)
    (h2 : listar_le b c = true) : listar_le a c = true := by
  unfold listar_le at h1 h2 ⊢
  simp only [Bool.or_eq_true, Bool.and_eq_true, decide_eq_true_eq,
    beq_iff_eq] at h1 h2 ⊢
  rcases h1 with h1 | ⟨h1e, h1x⟩ <;> rcases h2 with h2 | ⟨h2e, h2x⟩
  · exact Or.inl (lt_trans h1 h2)
  · exact Or.inl (h2e ▸ h1)
  · exact Or.inl (h1e ▸ h2)
  · exact Or.inr ⟨h1e.trans h2e, exp_le_trans h1x h2x⟩

instance : IsTotal License (fun a b => listar_le a b = true) :=
  ⟨listar_le_total⟩

instance : IsTrans License (fun a b => listar_le a b = true) :=
  ⟨fun _ _ _ => listar_le_trans⟩

/-- An active record long past its expiration (derived-expired per the
spec, stored status still `active`). -/
def c8_active_expired : License := { base_lic with expires := some (-1) }

/-- A suspended record expiring far in the future. -/
def c8_suspended : License :=
  { base_lic with status := "suspended", expires := some 50 }

/-- C8 counterexample: at today = 0 the derived-expired record (spec rank
2) is sorted before the suspended record (spec rank 1), because the code
ranks by the stored status string only — an `active` stored status gets
rank 0 no matter how old its expiration is. -/
theorem c8_listar_counterexample :
    listar_sort [c8_active_expired, c8_suspended] =
      [c8_active_expired, c8_suspended] ∧
    spec_status_rank 0 c8_active_expired = 2 ∧
    spec_status_rank 0 c8_suspended = 1 ∧ (1 : Nat) < 2 := by
  exact ⟨by decide, by decide, by decide, by decide⟩

/-- C8 (amended): `listar` sorts by the Python tuple key
`(status_order, expires)`: primarily by the rank of the *stored* status
string (active = 0, suspended = 1, literal `"expired"` = 2, cancelled =
3, anything else 9 — no rank is derived from dates), secondarily by the
expiration ascending with a missing date first; the result is a
permutation of the input. -/
theorem c8_listar_sort_spec (lics : List License) :
    List.Sorted (fun a b => listar_le a b = true) (listar_sort lics) ∧
    List.Perm (listar_sort lics) lics ∧
    (∀ a b : License, listar_le a b = true ↔
        (listar_status_order a.status < listar_status_order b.status ∨
         (listar_status_order a.status = listar_status_order b.status ∧
          exp_le a.expires b.expires = true))) := by
  refine ⟨List.sorted_insertionSort _ _, List.perm_insertionSort _ _, ?_⟩
  intro a b
  simp [listar_le, Bool.or_eq_true, Bool.and_eq_true, decide_eq_true_eq,
    beq_iff_eq]

/-- Witness for C8: sorting the concrete one-record document permutes it. -/
theorem c8_listar_sort_spec_witness :
    List.Perm (listar_sort [base_lic]) [base_lic] :=
  (c8_listar_sort_spec [base_lic]).2.1

/-- C9: when `suspender` finds a record and writes, the document keeps its
length, every record is either untouched or the result of
`suspender_record`, which changes only the status (to `suspended`), and
the found record itself is written back suspended with its key and
expiration intact. -/
theorem c9_suspender_spec (cpfRaw : String) (lics l' : List License)
    (h : suspender cpfRaw lics = .write l') :
    l'.length = lics.length ∧
    List.Forall₂ (fun a b : License =>
      b.key = a.key ∧ b.expires = a.expires ∧ b.cpf_cnpj = a.cpf_cnpj ∧
      b.customer = a.customer ∧ b.email = a.email ∧ b.plan = a.plan ∧
      b.max_users = a.max_users ∧ b.created_at = a.created_at ∧
      (b.status = a.status ∨ b.status = "suspended")) lics l' ∧
    (∀ r, find_license_by_cpf (normalize_cpf_cnpj cpfRaw) lics = some r →
      suspender_record r ∈ l' ∧
      (suspender_record r).status = "suspended" ∧
      (suspender_record r).key = r.key ∧
      (suspender_record r).expires = r.expires) := by
  simp only [suspender] at h
  cases hf : find_license_by_cpf (normalize_cpf_cnpj cpfRaw) lics with
  | none => rw [hf] at h; cases h
  | some r0 =>
      rw [hf] at h
      cases h
      refine ⟨update_first_length _ _ lics, ?_, ?_⟩
      · refine (update_first_forall₂ _ _ lics).imp ?_
        intro a b hab
        rcases hab with rfl | ⟨-, rfl⟩
        · exact ⟨rfl, rfl, rfl, rfl, rfl, rfl, rfl, rfl, Or.inl rfl⟩
        · exact ⟨rfl, rfl, rfl, rfl, rfl, rfl, rfl, rfl, Or.inr rfl⟩
      · intro r hr
        injection hr with hr0
        subst hr0
        exact ⟨find?_update_first_mem _ _ lics r0 hf, rfl, rfl, rfl⟩

/-- Witness for C9: suspending the concrete one-record document. -/
theorem c9_suspender_spec_witness :
    ([{ base_lic with status := "suspended" }] : List License).length =
      [base_lic].length :=
  (c9_suspender_spec "12345678901" [base_lic]
    [{ base_lic with status := "suspended" }] (by decide)).1

/-- C10: both `renovar` variants accept any integer number of months —
whenever the record is found they proceed to produce a document to write,
with no range check — and for months ≤ 0 the new expiration lands on or
before the base date (which is at most `max(currentExpiry, today)`); in
contrast, `ativar` rejects months outside `[1, 24]` before doing
anything. -/
theorem c10_renovar_unvalidated_months :
    (∀ (cpfRaw : String) (m today : Int) (k : String)
        (lics : List License) (r : License),
        find_license_by_cpf (normalize_cpf_cnpj cpfRaw) lics = some r →
        ∃ l', renovar cpfRaw m today k lics = .write l') ∧
    (∀ (cpfRaw : String) (m today : Int) (lics : List License)
        (r : License),
        find_license_by_cpf (normalize_cpf_cnpj cpfRaw) lics = some r →
        ∃ l', renovar_tg cpfRaw m today lics = .write l') ∧
    (∀ (lic : License) (today : Int) (k : String) (m : Int), m ≤ 0 →
        ∃ e, (renovar_record lic today k m).expires = some e ∧
          e ≤ max (lic.expires.getD today) today) ∧
    (∀ (lic : License) (today m : Int), m ≤ 0 →
        ∃ e, (renovar_tg_record lic today m).expires = some e ∧
          e ≤ max (lic.expires.getD today) today) ∧
    (∀ (cpfRaw : String) (m : Int) (nome : String) (today : Int)
        (key createdAt : String) (lics : List License),
        ((normalize_cpf_cnpj cpfRaw).length = 11 ∨
          (normalize_cpf_cnpj cpfRaw).length = 14) →
        (m < 1 ∨ 24 < m) →
        ativar cpfRaw m nome today key createdAt lics = .invalidMonths) := by
  refine ⟨?_, ?_, ?_, ?_, ?_⟩
  · intro cpfRaw m today k lics r hf
    exact ⟨update_first (cpf_matches (normalize_cpf_cnpj cpfRaw))
      (fun lic => renovar_record lic today k m) lics,
      by simp only [renovar, hf]⟩
  · intro cpfRaw m today lics r hf
    exact ⟨update_first (cpf_matches (normalize_cpf_cnpj cpfRaw))
      (fun lic => renovar_tg_record lic today m) lics,
      by simp only [renovar_tg, hf]⟩
  · intro lic today k m hm
    by_cases h : should_start_from_zero lic today = true
    · refine ⟨today + 30 * m, by simp [renovar_record, h], ?_⟩
      have h1 : today + 30 * m ≤ today := by omega
      exact h1.trans (le_max_right _ _)
    · simp only [Bool.not_eq_true] at h
      refine ⟨lic.expires.getD today + 30 * m,
        by simp [renovar_record, h], ?_⟩
      have h1 : lic.expires.getD today + 30 * m ≤ lic.expires.getD today := by
        omega
      exact h1.trans (le_max_left _ _)
  · intro lic today m hm
    refine ⟨max (lic.expires.getD today) today + 30 * m, rfl, ?_⟩
    have h1 : 30 * m ≤ 0 := by omega
    linarith
  · intro cpfRaw m nome today key createdAt lics hlen hm
    simp only [ativar]
    rw [if_neg (by tauto), if_pos (by omega)]

/-- Witness for C10: activating for zero months is rejected while a renew
for zero months on a found record still writes. -/
theorem c10_renovar_unvalidated_months_witness :
    ativar "12345678901" 0 "Nome" 0 "XK3F-9MPQ-7RTV-2WZY"
      "2025-02-01T12:00:00" [] = .invalidMonths :=
  c10_renovar_unvalidated_months.2.2.2.2 "12345678901" 0 "Nome" 0
    "XK3F-9MPQ-7RTV-2WZY" "2025-02-01T12:00:00" [] (Or.inl (by decide))
    (Or.inl (by decide))

end LicenseBot
